import Mathlib

/-!
Shallow embedding of the `container_daemon` package
(`Godeps/.../garden-linux/container_daemon/daemon.go`) of the
garden-docker repository, together with theorems settling the
specification claims about `Handle`, `reportExitStatus`,
`tryToReportErrorf` and `Stop`.

External collaborators (the JSON decoder, `os.Pipe`, the credential
resolver `cd.Users.Lookup`, and the process runner's `Start`/`Wait`)
are modelled as an environment record whose fields give the outcome of
each call the Go code makes, in call order.  File descriptors are
modelled as natural numbers: the i-th `os.Pipe()` call yields read end
`2*i` and write end `2*i+1`.
-/

namespace ContainerDaemon

/-- `garden.ProcessSpec`, restricted to the fields `Handle` reads:
`Path`, `Args`, `User`. -/
structure ProcessSpec where
  path : String
  args : List String
  user : String
deriving Repr, DecidableEq

/-- The user record returned by `cd.Users.Lookup` (`os/user.User` in Go):
`Uid` and `Gid` are strings. -/
structure GoUser where
  uid : String
  gid : String
deriving Repr, DecidableEq

/-- Read end fd of the i-th pipe (`pipes[i].r`). -/
def fdR (i : Nat) : Nat := 2 * i

/-- Write end fd of the i-th pipe (`pipes[i].w`). -/
def fdW (i : Nat) : Nat := 2 * i + 1

/-- The errors `Handle` can return, one constructor per `fmt.Errorf`
site in `Handle`; each carries the inserts of the format string. -/
inductive HandleError where
  /-- "container_daemon: Decode failed: %s" -/
  | decodeFailed (msg : String)
  /-- "container_daemon: Failed to create pipe: %s" -/
  | pipeCreateFailed (msg : String)
  /-- "container_daemon: failed to lookup user %s" (lookup returned no
  record and no error) -/
  | unknownUser (user : String)
  /-- "container_daemon: lookup user %s: %s" (lookup itself errored) -/
  | lookupFailed (user : String) (msg : String)
  /-- "container_daemon: running command: %s" -/
  | startFailed (msg : String)
deriving Repr, DecidableEq

/-- Outcome of `cd.Users.Lookup(spec.User)`: Go's `(user, err)` pair.
`.error` is `err != nil`; `.ok none` is `err == nil && user == nil`;
`.ok (some u)` is `err == nil && user != nil`. -/
def LookupResult := Except String (Option GoUser)

/-- The environment of one `Handle` invocation: the result of each
external call the Go code performs. -/
structure Env where
  /-- result of `decoder.Decode(&spec)` -/
  decode : Except String ProcessSpec
  /-- result of the i-th `os.Pipe()` call: `none` = success,
  `some msg` = the error it returned -/
  pipeRes : Nat → Option String
  /-- result of `cd.Users.Lookup` on the given user name -/
  lookup : String → Except String (Option GoUser)
  /-- result of `cd.Runner.Start(cmd)`: `none` = success -/
  startRes : Option String

/-- `fmt.Sscanf(s, "%d", &x)` for a fresh `uint32` variable `x`,
following Go's `scanUint` for an unsigned argument: leading space
characters (space, tab, vertical tab, form feed; not newline or
carriage return, which `Sscanf` treats as non-space and which stop the
scan with an error) are skipped, then a non-empty run of decimal
digits is read (no sign is accepted for an unsigned argument; trailing
non-digits are left unconsumed), and a value past `uint32` is rejected
as overflow.  On any scan error the variable keeps its zero value.
Returns `none` when the scan fails. -/
def sscanfU32 (s : String) : Option Nat :=
  let digits := (s.data.dropWhile fun c =>
    c == ' ' || c == '\t' || c == '\x0b' || c == '\x0c').takeWhile Char.isDigit
  if digits.isEmpty then none
  else
    let v := digits.foldl (fun acc c => 10 * acc + (c.toNat - 48)) 0
    if v < 2 ^ 32 then some v else none

/-- Index of the first failing `os.Pipe()` call in the
`for i := 0; i < 4; i++` loop, if any. -/
def firstPipeFail (pipeRes : Nat → Option String) : Option Nat :=
  (List.range 4).find? (fun i => (pipeRes i).isSome)

/-- Both fds of each of the first `n` pipes, in creation order. -/
def pipeFds (n : Nat) : List Nat :=
  (List.range n).flatMap (fun i => [fdR i, fdW i])

/-- Everything observable about one `Handle` invocation. -/
structure HandleOut where
  /-- the `([]*os.File, error)` return value: on success the list of
  client-end fds, in order -/
  result : Except HandleError (List Nat)
  /-- fds created during the call (every pipe end `os.Pipe` handed out) -/
  createdFds : List Nat
  /-- fds closed before `Handle` returned -/
  closedFds : List Nat
  /-- whether `cd.Runner.Start` was invoked -/
  startInvoked : Bool
  /-- whether `cd.Runner.Wait` was invoked by `Handle` itself.  In the
  source, `Runner.Wait` appears only inside `reportExitStatus`, which is
  run on a separate goroutine (`go reportExitStatus(...)`); `Handle`
  never calls it. -/
  waitInvoked : Bool
  /-- whether the `go reportExitStatus(...)` completion task was
  scheduled -/
  goScheduled : Bool
  /-- the `syscall.Credential{Uid: uid, Gid: gid}` the command was built
  with, when the command was built -/
  cred : Option (Nat × Nat)
deriving Repr

/-- Shallow embedding of `(cd *ContainerDaemon) Handle`, daemon.go
lines 51-110, following the Go control flow branch by branch. -/
def Handle (env : Env) : HandleOut :=
  match env.decode with
  | .error e =>
      { result := .error (.decodeFailed e), createdFds := [],
        closedFds := [], startInvoked := false, waitInvoked := false,
        goScheduled := false, cred := none }
  | .ok spec =>
      match firstPipeFail env.pipeRes with
      | some i =>
          -- the loop returns on the first failing os.Pipe(); pipes
          -- 0..i-1 were already created and are not closed
          { result := .error (.pipeCreateFailed
              (((env.pipeRes i).getD ""))),
            createdFds := pipeFds i, closedFds := [],
            startInvoked := false, waitInvoked := false,
            goScheduled := false, cred := none }
      | none =>
          let created := pipeFds 4
          match env.lookup spec.user with
          | .ok (some u) =>
              -- fmt.Sscanf(user.Uid, "%d", &uid) // todo(jz): handle errors
              -- fmt.Sscanf(user.Gid, "%d", &gid)
              let uid := (sscanfU32 u.uid).getD 0
              let gid := (sscanfU32 u.gid).getD 0
              match env.startRes with
              | some e =>
                  { result := .error (.startFailed e),
                    createdFds := created, closedFds := [],
                    startInvoked := true, waitInvoked := false,
                    goScheduled := false, cred := some (uid, gid) }
              | none =>
                  { result := .ok [fdW 0, fdR 1, fdR 2, fdR 3],
                    createdFds := created, closedFds := [],
                    startInvoked := true, waitInvoked := false,
                    goScheduled := true, cred := some (uid, gid) }
          | .ok none =>
              { result := .error (.unknownUser spec.user),
                createdFds := created, closedFds := [],
                startInvoked := false, waitInvoked := false,
                goScheduled := false, cred := none }
          | .error e =>
              { result := .error (.lookupFailed spec.user e),
                createdFds := created, closedFds := [],
                startInvoked := false, waitInvoked := false,
                goScheduled := false, cred := none }

/-! ## The exit-status reporting task (`reportExitStatus`) -/

/-- Modelled from the spec: the constant `UnknownExitStatus` is defined
in another file of the `container_daemon` package, not present under
`src/`; the spec calls it the "reserved sentinel 'unknown exit status'
value" written when the true exit code cannot be determined.  Its
numeric value is not fixed by the spec; `255` is used here as the
reserved byte, and no theorem depends on the choice. -/
def UnknownExitStatus : Nat := 255

/-- Observable events of the completion task, in program order: `Wait`
on the runner, writes to the stderr server end (`errWriter`), writes to
the exit-status server end (`exitWriter`), and fd closes. -/
inductive Ev where
  | waitCall
  | writeErr (msg : String)
  | writeExit (bytes : List Nat)
  | close (fd : Nat)
deriving Repr, DecidableEq

/-- Environment of one `reportExitStatus` run: the outcome of
`runner.Wait(cmd)` and of each fallible write. -/
structure TaskEnv where
  /-- `runner.Wait(cmd)`: `.ok c` gives exit status byte `c`,
  `.error msg` is `err != nil` -/
  waitRes : Except String Nat
  /-- whether `exitWriter.Write` succeeds: `none` = success,
  `some msg` = its error -/
  exitWriteRes : Option String
  /-- whether `errWriter.Write` inside `tryToReportErrorf` succeeds;
  the Go code ignores this result -/
  errWriteOk : Bool

/-- `tryToReportErrorf(errWriter, format, inserts...)`: formats the
message and writes it to `errWriter`, ignoring the write's error.  (In
the source the inserts are passed as a single slice argument to
`fmt.Sprintf`, so the rendered insert is wrapped in brackets; the
message is the non-empty format prefix followed by the rendering.) -/
def tryToReportErrorf (fmtPrefix : String) (insert : String) : Ev :=
  .writeErr (fmtPrefix ++ "[" ++ insert ++ "]")

/-- The `tidyUp` closure passed to `reportExitStatus` by `Handle`
(daemon.go lines 102-107): closes `pipes[0].r` then `pipes[i].w` for
`i = 1, 2, 3` (the loop unrolled), ignoring errors. -/
def tidyUp : List Ev :=
  [.close (fdR 0), .close (fdW 1), .close (fdW 2), .close (fdW 3)]

/-- Shallow embedding of `reportExitStatus` (daemon.go lines 112-124)
as the trace of events it performs.  `defer tidyUp()` runs the cleanup
after the function body on every path. -/
def reportExitStatus (env : TaskEnv) : List Ev :=
  let body :=
    match env.waitRes with
    | .ok exitStatus =>
        [Ev.waitCall, Ev.writeExit [exitStatus]] ++
          (match env.exitWriteRes with
           | none => []
           | some e =>
               [tryToReportErrorf
                  "container_daemon: failed to Write exit status: " e])
    | .error e =>
        [Ev.waitCall,
         tryToReportErrorf "container_daemon: Wait failed: " e,
         Ev.writeExit [UnknownExitStatus]] ++
          (match env.exitWriteRes with
           | none => []
           | some e2 =>
               [tryToReportErrorf
                  "container_daemon: failed to Write exit status: " e2])
  body ++ tidyUp

/-! ## Daemon lifecycle: `Stop` -/

/-- Modelled from the spec: the `unix_socket` `Listener` implementation
is not under `src/` (only the `Listener` interface is).  Per §4.1 the
listener's `Stop` "requests the listener stop accepting and release its
resources" and is idempotent-safe; it records the stopped flag and
returns no error. -/
def listenerStop (_stopped : Bool) : Bool × Option String :=
  (true, none)

/-- The daemon state visible to `Stop`: the listener's stopped flag and
the descriptor sets already returned by earlier successful `Handle`
calls.  `Stop` only touches the listener. -/
structure DaemonState where
  listenerStopped : Bool
  returnedFdSets : List (List Nat)
deriving Repr, DecidableEq

/-- Shallow embedding of `(cd *ContainerDaemon) Stop` (daemon.go lines
131-137): delegates to `Listener.Stop()`, wrapping any error as
"container_daemon: stopping the listener: %s". -/
def Stop (s : DaemonState) : DaemonState × Option String :=
  match listenerStop s.listenerStopped with
  | (st, none) => ({ s with listenerStopped := st }, none)
  | (st, some e) =>
      ({ s with listenerStopped := st },
       some ("container_daemon: stopping the listener: " ++ e))

/-! ## Trace observers -/

/-- The payloads of the writes to the exit-status server end
(`exitWriter`), in order. -/
def exitWrites (tr : List Ev) : List (List Nat) :=
  tr.filterMap fun e => match e with | .writeExit b => some b | _ => none

/-- The close events of a trace, in order. -/
def closesOf (tr : List Ev) : List Ev :=
  tr.filter fun e => match e with | .close _ => true | _ => false

/-- The suffix of a trace starting at the close of the exit-status
server end (`pipes[3].w`), empty if that end is never closed. -/
def fromExitClose (tr : List Ev) : List Ev :=
  tr.dropWhile fun e => !(decide (e = Ev.close (fdW 3)))

end ContainerDaemon

namespace ContainerDaemon

/-! ## Theorems for the claims -/

/-- C7: for every `Handle` invocation in which decoding, all four pipe
creations, the user lookup and `Runner.Start` succeed, the result is
exactly the four client-end descriptors in the fixed role order
stdin-write (`pipes[0].w`), stdout-read (`pipes[1].r`), stderr-read
(`pipes[2].r`), exit-status-read (`pipes[3].r`); `Handle` never invokes
the Runner's `Wait` itself (it only schedules the background completion
task), so it does not block for process completion. -/
theorem handle_success_returns_four_fds (env : Env) (spec : ProcessSpec)
    (u : GoUser)
    (hd : env.decode = .ok spec)
    (hp : firstPipeFail env.pipeRes = none)
    (hl : env.lookup spec.user = .ok (some u))
    (hs : env.startRes = none) :
    (Handle env).result = .ok [fdW 0, fdR 1, fdR 2, fdR 3] ∧
    (Handle env).waitInvoked = false ∧
    (Handle env).goScheduled = true := by
  simp [Handle, hd, hp, hl, hs]

/-- Witness for `handle_success_returns_four_fds` at a concrete
environment. -/
theorem handle_success_returns_four_fds_witness :
    (Handle { decode := .ok ⟨"/bin/echo", ["hi"], "nobody"⟩,
              pipeRes := fun _ => none,
              lookup := fun _ => .ok (some ⟨"65534", "65534"⟩),
              startRes := none }).result =
        .ok [fdW 0, fdR 1, fdR 2, fdR 3] ∧
    (Handle { decode := .ok ⟨"/bin/echo", ["hi"], "nobody"⟩,
              pipeRes := fun _ => none,
              lookup := fun _ => .ok (some ⟨"65534", "65534"⟩),
              startRes := none }).waitInvoked = false ∧
    (Handle { decode := .ok ⟨"/bin/echo", ["hi"], "nobody"⟩,
              pipeRes := fun _ => none,
              lookup := fun _ => .ok (some ⟨"65534", "65534"⟩),
              startRes := none }).goScheduled = true :=
  handle_success_returns_four_fds _ ⟨"/bin/echo", ["hi"], "nobody"⟩
    ⟨"65534", "65534"⟩ rfl rfl rfl rfl

/-- C8: for every connection whose framing does not decode into a
`ProcessSpec`, `Handle` fails with a decode error carrying the
decoder's message, and no resources are allocated: no fds are created,
`Runner.Start` is not invoked, no completion task is scheduled and no
command credential is built. -/
theorem handle_decode_failure_allocates_nothing (env : Env) (e : String)
    (h : env.decode = .error e) :
    (Handle env).result = .error (.decodeFailed e) ∧
    (Handle env).createdFds = [] ∧
    (Handle env).closedFds = [] ∧
    (Handle env).startInvoked = false ∧
    (Handle env).goScheduled = false ∧
    (Handle env).cred = none := by
  simp [Handle, h]

/-- Witness for `handle_decode_failure_allocates_nothing` at a concrete
environment. -/
theorem handle_decode_failure_allocates_nothing_witness :
    (Handle { decode := .error "unexpected EOF",
              pipeRes := fun _ => none,
              lookup := fun _ => .ok none,
              startRes := none }).result =
        .error (.decodeFailed "unexpected EOF") ∧
    (Handle { decode := .error "unexpected EOF",
              pipeRes := fun _ => none,
              lookup := fun _ => .ok none,
              startRes := none }).createdFds = [] ∧
    (Handle { decode := .error "unexpected EOF",
              pipeRes := fun _ => none,
              lookup := fun _ => .ok none,
              startRes := none }).closedFds = [] ∧
    (Handle { decode := .error "unexpected EOF",
              pipeRes := fun _ => none,
              lookup := fun _ => .ok none,
              startRes := none }).startInvoked = false ∧
    (Handle { decode := .error "unexpected EOF",
              pipeRes := fun _ => none,
              lookup := fun _ => .ok none,
              startRes := none }).goScheduled = false ∧
    (Handle { decode := .error "unexpected EOF",
              pipeRes := fun _ => none,
              lookup := fun _ => .ok none,
              startRes := none }).cred = none :=
  handle_decode_failure_allocates_nothing _ "unexpected EOF" rfl

/-- Concrete environment with an unresolvable user: decoding and all
four pipe creations succeed, the lookup returns no record. -/
def envUnknownUser : Env :=
  { decode := .ok ⟨"/bin/echo", ["hi"], "ghost"⟩,
    pipeRes := fun _ => none,
    lookup := fun _ => .ok none,
    startRes := none }

/-- C1, counterexample: with an unresolvable user, `Handle` does return
an error and starts no process, but the four pipes (eight fds) created
before the lookup are NOT closed before `Handle` returns — nothing is
closed, so the created fds are not a subset of the closed ones,
refuting "every pipe created during the attempt is closed". -/
theorem handle_unknown_user_leak_counterexample :
    (Handle envUnknownUser).result = .error (.unknownUser "ghost") ∧
    (Handle envUnknownUser).startInvoked = false ∧
    (Handle envUnknownUser).createdFds = [0, 1, 2, 3, 4, 5, 6, 7] ∧
    (Handle envUnknownUser).closedFds = [] ∧
    ¬ (Handle envUnknownUser).createdFds ⊆ (Handle envUnknownUser).closedFds := by
  refine ⟨rfl, rfl, by decide, rfl, fun h => ?_⟩
  exact absurd (h (show 0 ∈ (Handle envUnknownUser).createdFds by decide))
    (by decide)

/-- C1, amended: for every `ProcessSpec` whose user the resolver cannot
resolve (no record, or the lookup errors), `Handle` returns the
corresponding credential error, `Runner.Start` is never invoked and no
completion task is scheduled — but all four pipes were already created
before the lookup and none of their eight descriptors is closed before
`Handle` returns: they are leaked. -/
theorem handle_unresolvable_user (env : Env) (spec : ProcessSpec)
    (hd : env.decode = .ok spec)
    (hp : firstPipeFail env.pipeRes = none)
    (hl : env.lookup spec.user = .ok none ∨
          ∃ e, env.lookup spec.user = .error e) :
    (∃ err, (Handle env).result = .error err ∧
       (err = .unknownUser spec.user ∨
        ∃ e, err = .lookupFailed spec.user e)) ∧
    (Handle env).startInvoked = false ∧
    (Handle env).goScheduled = false ∧
    (Handle env).createdFds = pipeFds 4 ∧
    (Handle env).closedFds = [] := by
  rcases hl with hl | ⟨e, hl⟩ <;>
    simp [Handle, hd, hp, hl]

/-- Witness for `handle_unresolvable_user` at `envUnknownUser`. -/
theorem handle_unresolvable_user_witness :
    (∃ err, (Handle envUnknownUser).result = .error err ∧
       (err = .unknownUser "ghost" ∨
        ∃ e, err = .lookupFailed "ghost" e)) ∧
    (Handle envUnknownUser).startInvoked = false ∧
    (Handle envUnknownUser).goScheduled = false ∧
    (Handle envUnknownUser).createdFds = pipeFds 4 ∧
    (Handle envUnknownUser).closedFds = [] :=
  handle_unresolvable_user envUnknownUser ⟨"/bin/echo", ["hi"], "ghost"⟩
    rfl rfl (Or.inl rfl)

/-- Concrete environment in which the second `os.Pipe()` call fails
after the first succeeded. -/
def envPipeFail : Env :=
  { decode := .ok ⟨"/bin/echo", ["hi"], "root"⟩,
    pipeRes := fun i => if i = 0 then none else some "too many open files",
    lookup := fun _ => .ok (some ⟨"0", "0"⟩),
    startRes := none }

/-- C2, counterexample: when the second pipe creation fails, `Handle`
fails with the resource-allocation error, but the first pipe's two fds,
already created, are NOT closed before returning — nothing is closed,
refuting "every pipe created so far in that invocation is closed". -/
theorem handle_pipe_failure_leak_counterexample :
    (Handle envPipeFail).result =
      .error (.pipeCreateFailed "too many open files") ∧
    (Handle envPipeFail).createdFds = [0, 1] ∧
    (Handle envPipeFail).closedFds = [] ∧
    ¬ (Handle envPipeFail).createdFds ⊆ (Handle envPipeFail).closedFds := by
  refine ⟨rfl, by decide, rfl, fun h => ?_⟩
  exact absurd (h (show 0 ∈ (Handle envPipeFail).createdFds by decide))
    (by decide)

/-- C2, amended: for every `Handle` invocation in which the i-th
`os.Pipe()` call fails, the call fails with a resource-allocation
(pipe-creation) error and returns immediately; the pipes created so far
(fds of pipes `0..i-1`) are NOT closed before `Handle` returns — the
partial pipe set is leaked — and no process is started. -/
theorem handle_pipe_failure (env : Env) (spec : ProcessSpec) (i : Nat)
    (hd : env.decode = .ok spec)
    (hp : firstPipeFail env.pipeRes = some i) :
    (∃ e, (Handle env).result = .error (.pipeCreateFailed e)) ∧
    (Handle env).createdFds = pipeFds i ∧
    (Handle env).closedFds = [] ∧
    (Handle env).startInvoked = false ∧
    (Handle env).goScheduled = false := by
  simp [Handle, hd, hp]

/-- Witness for `handle_pipe_failure` at `envPipeFail`. -/
theorem handle_pipe_failure_witness :
    (∃ e, (Handle envPipeFail).result = .error (.pipeCreateFailed e)) ∧
    (Handle envPipeFail).createdFds = pipeFds 1 ∧
    (Handle envPipeFail).closedFds = [] ∧
    (Handle envPipeFail).startInvoked = false ∧
    (Handle envPipeFail).goScheduled = false :=
  handle_pipe_failure envPipeFail ⟨"/bin/echo", ["hi"], "root"⟩ 1 rfl rfl

/-- Concrete environment in which everything succeeds except
`Runner.Start`. -/
def envStartFail : Env :=
  { decode := .ok ⟨"/no/such/binary", [], "root"⟩,
    pipeRes := fun _ => none,
    lookup := fun _ => .ok (some ⟨"0", "0"⟩),
    startRes := some "no such file or directory" }

/-- C3, counterexample: when `Runner.Start` fails, `Handle` fails with
the start error and no completion task is scheduled, but none of the
eight allocated pipe ends is closed before `Handle` returns, refuting
"all eight allocated pipe ends are closed". -/
theorem handle_start_failure_leak_counterexample :
    (Handle envStartFail).result =
      .error (.startFailed "no such file or directory") ∧
    (Handle envStartFail).goScheduled = false ∧
    (Handle envStartFail).createdFds = [0, 1, 2, 3, 4, 5, 6, 7] ∧
    (Handle envStartFail).closedFds = [] ∧
    ¬ (Handle envStartFail).createdFds ⊆ (Handle envStartFail).closedFds := by
  refine ⟨rfl, rfl, by decide, rfl, fun h => ?_⟩
  exact absurd (h (show 0 ∈ (Handle envStartFail).createdFds by decide))
    (by decide)

/-- C3, amended: for every `Handle` invocation in which `Runner.Start`
fails, the call fails with a start error and no completion task is
scheduled, but none of the eight allocated pipe ends (neither client
nor server sides) is closed before `Handle` returns: all eight are
leaked. -/
theorem handle_start_failure (env : Env) (spec : ProcessSpec) (u : GoUser)
    (e : String)
    (hd : env.decode = .ok spec)
    (hp : firstPipeFail env.pipeRes = none)
    (hl : env.lookup spec.user = .ok (some u))
    (hs : env.startRes = some e) :
    (Handle env).result = .error (.startFailed e) ∧
    (Handle env).goScheduled = false ∧
    (Handle env).createdFds = pipeFds 4 ∧
    (Handle env).closedFds = [] := by
  simp [Handle, hd, hp, hl, hs]

/-- Witness for `handle_start_failure` at `envStartFail`. -/
theorem handle_start_failure_witness :
    (Handle envStartFail).result =
      .error (.startFailed "no such file or directory") ∧
    (Handle envStartFail).goScheduled = false ∧
    (Handle envStartFail).createdFds = pipeFds 4 ∧
    (Handle envStartFail).closedFds = [] :=
  handle_start_failure envStartFail ⟨"/no/such/binary", [], "root"⟩
    ⟨"0", "0"⟩ "no such file or directory" rfl rfl rfl rfl

/-- C4: for every completion-task run — every successfully started
command, on both the `Wait`-success and the `Wait`-failure path — the
task performs exactly one write to the exit-status server end, of
exactly one byte, and when `Wait` succeeds with exit code `c` that
byte is `c`; the exit-status server end is closed, and from that close
onward no further exit-status write occurs — so the single one-byte
write is the last write to the exit-status pipe before its server end
closes, and a reader observes exactly one byte followed by
end-of-stream. -/
theorem report_exit_status_one_byte (env : TaskEnv) :
    (∃ b, exitWrites (reportExitStatus env) = [[b]] ∧
       ∀ c, env.waitRes = .ok c → b = c) ∧
    Ev.close (fdW 3) ∈ reportExitStatus env ∧
    exitWrites (fromExitClose (reportExitStatus env)) = [] := by
  cases hw : env.waitRes with
  | ok c =>
      refine ⟨⟨c, ?_, ?_⟩, ?_, ?_⟩ <;>
        cases he : env.exitWriteRes <;>
          simp [reportExitStatus, hw, he, exitWrites, fromExitClose,
            tidyUp, tryToReportErrorf, fdR, fdW, List.dropWhile]
  | error e =>
      refine ⟨⟨UnknownExitStatus, ?_, ?_⟩, ?_, ?_⟩ <;>
        cases he : env.exitWriteRes <;>
          simp [reportExitStatus, hw, he, exitWrites, fromExitClose,
            tidyUp, tryToReportErrorf, fdR, fdW, List.dropWhile]

/-- Witness for `report_exit_status_one_byte` at a concrete task
environment with exit code 0. -/
theorem report_exit_status_one_byte_witness :
    (∃ b, exitWrites (reportExitStatus
        { waitRes := .ok 0, exitWriteRes := none, errWriteOk := true }) =
          [[b]] ∧
       ∀ c, ({ waitRes := .ok 0, exitWriteRes := none,
               errWriteOk := true } : TaskEnv).waitRes = .ok c → b = c) ∧
    Ev.close (fdW 3) ∈ reportExitStatus
        { waitRes := .ok 0, exitWriteRes := none, errWriteOk := true } ∧
    exitWrites (fromExitClose (reportExitStatus
        { waitRes := .ok 0, exitWriteRes := none, errWriteOk := true })) =
      [] :=
  report_exit_status_one_byte
    { waitRes := .ok 0, exitWriteRes := none, errWriteOk := true }

/-- Helper: on every path of the completion task its close events are
exactly the four `tidyUp` closes. -/
theorem closesOf_report_exit_status (env : TaskEnv) :
    closesOf (reportExitStatus env) =
      [Ev.close (fdR 0), Ev.close (fdW 1), Ev.close (fdW 2),
       Ev.close (fdW 3)] := by
  cases hw : env.waitRes <;> cases he : env.exitWriteRes <;>
    simp [reportExitStatus, hw, he, closesOf, tidyUp, tryToReportErrorf]

/-- C5: on every exit path of the completion task — `Wait` success,
`Wait` failure, exit-byte write failure, in any combination — the close
events of the task's trace are exactly one close of each of the four
daemon-held server descriptors, in `tidyUp` order: the stdin server end
`pipes[0].r` and the server ends `pipes[1].w`, `pipes[2].w`,
`pipes[3].w`; each is released exactly once. -/
theorem report_exit_status_releases_servers_once (env : TaskEnv) :
    closesOf (reportExitStatus env) =
      [Ev.close (fdR 0), Ev.close (fdW 1), Ev.close (fdW 2),
       Ev.close (fdW 3)] :=
  closesOf_report_exit_status env

/-- C6: for every completion-task run whose `Wait` fails, the task
writes the reserved sentinel `UnknownExitStatus` byte (and only it) to
the exit-status pipe, writes a non-empty diagnostic message to the
stderr server end, and still performs the full cleanup; the trace does
not depend on whether the stderr write succeeds, so a failed diagnostic
write is non-fatal. -/
theorem report_exit_status_wait_failure (env : TaskEnv) (e : String)
    (h : env.waitRes = .error e) :
    exitWrites (reportExitStatus env) = [[UnknownExitStatus]] ∧
    (∃ m, Ev.writeErr m ∈ reportExitStatus env ∧ m ≠ "") ∧
    closesOf (reportExitStatus env) =
      [Ev.close (fdR 0), Ev.close (fdW 1), Ev.close (fdW 2),
       Ev.close (fdW 3)] ∧
    (∀ b, reportExitStatus { env with errWriteOk := b } =
          reportExitStatus env) := by
  refine ⟨?_, ?_, closesOf_report_exit_status env, ?_⟩
  · cases hw : env.exitWriteRes <;>
      simp [reportExitStatus, h, hw, exitWrites, tidyUp, tryToReportErrorf]
  · refine ⟨"container_daemon: Wait failed: " ++ "[" ++ e ++ "]", ?_, ?_⟩
    · cases hw : env.exitWriteRes <;>
        simp [reportExitStatus, h, hw, tidyUp, tryToReportErrorf]
    · intro hm
      have hlen := congrArg String.length hm
      simp [String.length_append] at hlen
      exact absurd hlen.2 (by decide)
  · intro b
    cases env
    rfl

/-- Witness for `report_exit_status_wait_failure` at a concrete task
environment whose `Wait` fails. -/
theorem report_exit_status_wait_failure_witness :
    exitWrites (reportExitStatus
        { waitRes := .error "boom", exitWriteRes := none,
          errWriteOk := true }) = [[UnknownExitStatus]] ∧
    (∃ m, Ev.writeErr m ∈ reportExitStatus
        { waitRes := .error "boom", exitWriteRes := none,
          errWriteOk := true } ∧ m ≠ "") ∧
    closesOf (reportExitStatus
        { waitRes := .error "boom", exitWriteRes := none,
          errWriteOk := true }) =
      [Ev.close (fdR 0), Ev.close (fdW 1), Ev.close (fdW 2),
       Ev.close (fdW 3)] ∧
    (∀ b, reportExitStatus
        { waitRes := Except.error "boom", exitWriteRes := none,
          errWriteOk := b } =
      reportExitStatus
        { waitRes := .error "boom", exitWriteRes := none,
          errWriteOk := true }) :=
  report_exit_status_wait_failure
    { waitRes := .error "boom", exitWriteRes := none, errWriteOk := true }
    "boom" rfl

/-- C9: calling `Stop` repeatedly never errors after the first call
(with the spec-modelled idempotent listener, no call errors at all),
and `Stop` leaves the descriptor sets already returned by earlier
successful `Handle` calls untouched — both after one and after two
`Stop` calls, from any daemon state. -/
theorem stop_idempotent (s : DaemonState) :
    (Stop (Stop s).1).2 = none ∧
    (Stop (Stop s).1).1 = (Stop s).1 ∧
    (Stop s).1.returnedFdSets = s.returnedFdSets ∧
    (Stop (Stop s).1).1.returnedFdSets = s.returnedFdSets := by
  cases s
  simp [Stop, listenerStop]

end ContainerDaemon
